import Mathlib

/-!
Verification of the separating-axis-theorem box intersection predicates in
src/libbg/sat.c (`bg_sat_abb_obb` and `bg_sat_obb_obb`).

The SAT cores (everything after the center/half-extent/unit-axis
normalization) use only field arithmetic, absolute value and comparisons, so
they are embedded generically over a linear ordered field; the public entry
points are instantiated at the real numbers, with the vector magnitude and
unitization helpers (which live in vmath.h, outside the provided sources)
modelled from the specification.
-/

set_option maxHeartbeats 1600000

section Core

variable {α : Type*} [LinearOrderedField α]

/-- A 3-vector (`point_t` / `vect_t` with components indexed 0,1,2 as x,y,z). -/
@[ext]
structure Vect (α : Type*) where
  x : α
  y : α
  z : α

/-- VADD2: componentwise sum. -/
def vadd (a b : Vect α) : Vect α := ⟨a.x + b.x, a.y + b.y, a.z + b.z⟩

/-- VSUB2: componentwise difference. -/
def vsub (a b : Vect α) : Vect α := ⟨a.x - b.x, a.y - b.y, a.z - b.z⟩

/-- VSCALE: scalar multiple. -/
def smulv (c : α) (v : Vect α) : Vect α := ⟨c * v.x, c * v.y, c * v.z⟩

/-- VDOT: dot product. -/
def dotv (a b : Vect α) : α := a.x * b.x + a.y * b.y + a.z * b.z

/-- fabs from the C standard library: absolute value. -/
def fabs (a : α) : α := if a < 0 then -a else a

/-- Modelled from the spec: the system's standard unit-vector tolerance
(`VUNITIZE_TOL` from vmath.h, which is not among the provided sources), a
single small build-time epsilon. -/
def epsilon : α := 1 / 10 ^ 15

/-- `cutoff = 1.0 - epsilon` (sat.c lines 90 and 291). -/
def cutoff : α := 1 - epsilon

/-- Select one of three vectors by index (used to present the dot tables). -/
def pick3 (a b c : Vect α) (i : Fin 3) : Vect α :=
  if i = 0 then a else if i = 1 then b else c

/-- The `dot01` table of `bg_sat_obb_obb` (sat.c lines 315, 329, 343):
`dot01[i][j] = Dot(A0[i], A1[j])`. -/
def obbDot01 (A00 A01 A02 A10 A11 A12 : Vect α) (i j : Fin 3) : α :=
  dotv (pick3 A00 A01 A02 i) (pick3 A10 A11 A12 j)

/-- The `absDot01` table as `bg_sat_obb_obb` actually computes it
(sat.c lines 316, 330, 344): row 0 stores `fabs(A1[j][0])`, the absolute x
component of the second box's axes, while rows 1 and 2 store
`fabs(dot01[i][j])`. -/
def obbAbsDot01 (A00 A01 A02 A10 A11 A12 : Vect α) (i j : Fin 3) : α :=
  if i = 0 then fabs (pick3 A10 A11 A12 j).x
  else fabs (obbDot01 A00 A01 A02 A10 A11 A12 i j)

/-- `existsParallelPair` as computed by `bg_sat_abb_obb` (sat.c lines
110-144): every one of the nine entries `absDot01[k][i] = fabs(A1[i][k])` is
compared against the cutoff with `>=`. -/
def abbParallelPair (A10 A11 A12 : Vect α) : Prop :=
  fabs A10.x ≥ cutoff ∨ fabs A11.x ≥ cutoff ∨ fabs A12.x ≥ cutoff ∨
  fabs A10.y ≥ cutoff ∨ fabs A11.y ≥ cutoff ∨ fabs A12.y ≥ cutoff ∨
  fabs A10.z ≥ cutoff ∨ fabs A11.z ≥ cutoff ∨ fabs A12.z ≥ cutoff

/-- `existsParallelPair` as computed by `bg_sat_obb_obb` (sat.c lines
314-347): row 0 (line 317) compares `fabs(A1[i][0])` — the absolute x
components of the second box's axes — with `>=`, while rows 1 and 2 (lines
331, 345) compare the absolute dot products with strict `>`. -/
def obbParallelPair (A01 A02 A10 A11 A12 : Vect α) : Prop :=
  fabs A10.x ≥ cutoff ∨ fabs A11.x ≥ cutoff ∨ fabs A12.x ≥ cutoff ∨
  fabs (dotv A01 A10) > cutoff ∨ fabs (dotv A01 A11) > cutoff ∨ fabs (dotv A01 A12) > cutoff ∨
  fabs (dotv A02 A10) > cutoff ∨ fabs (dotv A02 A11) > cutoff ∨ fabs (dotv A02 A12) > cutoff

instance decAbbParallelPair (A10 A11 A12 : Vect α) :
    Decidable (abbParallelPair A10 A11 A12) := by
  unfold abbParallelPair; infer_instance

instance decObbParallelPair (A01 A02 A10 A11 A12 : Vect α) :
    Decidable (obbParallelPair A01 A02 A10 A11 A12) := by
  unfold obbParallelPair; infer_instance

/-- The SAT core of `bg_sat_abb_obb` (sat.c lines 93-255), acting on the
difference of centers `D = C1 - C0`, the aligned box half extents `E0`, the
oriented box half extents `E1` and unit axes `A10 A11 A12`.  Since the first
box's axes are the world basis, `dot01[k][i] = A1[i][k]` and
`absDot01[k][i] = fabs(A1[i][k])`. -/
def abbCoreD (D E0 E1 A10 A11 A12 : Vect α) : ℤ :=
  let a00 := fabs A10.x
  let a01 := fabs A11.x
  let a02 := fabs A12.x
  let a10 := fabs A10.y
  let a11 := fabs A11.y
  let a12 := fabs A12.y
  let a20 := fabs A10.z
  let a21 := fabs A11.z
  let a22 := fabs A12.z
  if fabs D.x > E0.x + (E1.x * a00 + E1.y * a01 + E1.z * a02) then 0 else
  if fabs D.y > E0.y + (E1.x * a10 + E1.y * a11 + E1.z * a12) then 0 else
  if fabs D.z > E0.z + (E1.x * a20 + E1.y * a21 + E1.z * a22) then 0 else
  if fabs (dotv D A10) > (E0.x * a00 + E0.y * a10 + E0.z * a20) + E1.x then 0 else
  if fabs (dotv D A11) > (E0.x * a01 + E0.y * a11 + E0.z * a21) + E1.y then 0 else
  if fabs (dotv D A12) > (E0.x * a02 + E0.y * a12 + E0.z * a22) + E1.z then 0 else
  if abbParallelPair A10 A11 A12 then 1 else
  if fabs (D.z * A10.y - D.y * A10.z) > (E0.y * a20 + E0.z * a10) + (E1.y * a02 + E1.z * a01) then 0 else
  if fabs (D.z * A11.y - D.y * A11.z) > (E0.y * a21 + E0.z * a11) + (E1.x * a02 + E1.z * a00) then 0 else
  if fabs (D.z * A12.y - D.y * A12.z) > (E0.y * a22 + E0.z * a12) + (E1.x * a01 + E1.y * a00) then 0 else
  if fabs (D.x * A10.z - D.z * A10.x) > (E0.x * a20 + E0.z * a00) + (E1.y * a12 + E1.z * a11) then 0 else
  if fabs (D.x * A11.z - D.z * A11.x) > (E0.x * a21 + E0.z * a01) + (E1.x * a12 + E1.z * a10) then 0 else
  if fabs (D.x * A12.z - D.z * A12.x) > (E0.x * a22 + E0.z * a02) + (E1.x * a11 + E1.y * a10) then 0 else
  if fabs (D.y * A10.x - D.x * A10.y) > (E0.x * a10 + E0.y * a00) + (E1.y * a22 + E1.z * a21) then 0 else
  if fabs (D.y * A11.x - D.x * A11.y) > (E0.x * a11 + E0.y * a01) + (E1.x * a22 + E1.z * a20) then 0 else
  if fabs (D.y * A12.x - D.x * A12.y) > (E0.x * a12 + E0.y * a02) + (E1.x * a21 + E1.y * a20) then 0 else
  1

/-- The SAT core of `bg_sat_obb_obb` (sat.c lines 294-456), acting on the
difference of centers `D = C1 - C0`, the two boxes' half extents `E0`, `E1`
and unit axes `A00 A01 A02`, `A10 A11 A12`.  The `d..` values are the
`dot01` table; the `a..` values are the `absDot01` table as the code computes
it — note line 316 fills row 0 with `fabs(A1[i][0])` instead of
`fabs(dot01[0][i])`. -/
def obbCoreD (D E0 A00 A01 A02 E1 A10 A11 A12 : Vect α) : ℤ :=
  let d00 := dotv A00 A10
  let d01 := dotv A00 A11
  let d02 := dotv A00 A12
  let d10 := dotv A01 A10
  let d11 := dotv A01 A11
  let d12 := dotv A01 A12
  let d20 := dotv A02 A10
  let d21 := dotv A02 A11
  let d22 := dotv A02 A12
  let a00 := fabs A10.x
  let a01 := fabs A11.x
  let a02 := fabs A12.x
  let a10 := fabs d10
  let a11 := fabs d11
  let a12 := fabs d12
  let a20 := fabs d20
  let a21 := fabs d21
  let a22 := fabs d22
  let dD0 := dotv D A00
  let dD1 := dotv D A01
  let dD2 := dotv D A02
  if fabs dD0 > E0.x + (E1.x * a00 + E1.y * a01 + E1.z * a02) then 0 else
  if fabs dD1 > E0.y + (E1.x * a10 + E1.y * a11 + E1.z * a12) then 0 else
  if fabs dD2 > E0.z + (E1.x * a20 + E1.y * a21 + E1.z * a22) then 0 else
  if fabs (dotv D A10) > (E0.x * a00 + E0.y * a10 + E0.z * a20) + E1.x then 0 else
  if fabs (dotv D A11) > (E0.x * a01 + E0.y * a11 + E0.z * a21) + E1.y then 0 else
  if fabs (dotv D A12) > (E0.x * a02 + E0.y * a12 + E0.z * a22) + E1.z then 0 else
  if obbParallelPair A01 A02 A10 A11 A12 then 1 else
  if fabs (dD2 * d10 - dD1 * d20) > (E0.y * a20 + E0.z * a10) + (E1.y * a02 + E1.z * a01) then 0 else
  if fabs (dD2 * d11 - dD1 * d21) > (E0.y * a21 + E0.z * a11) + (E1.x * a02 + E1.z * a00) then 0 else
  if fabs (dD2 * d12 - dD1 * d22) > (E0.y * a22 + E0.z * a12) + (E1.x * a01 + E1.y * a00) then 0 else
  if fabs (dD0 * d20 - dD2 * d00) > (E0.x * a20 + E0.z * a00) + (E1.y * a12 + E1.z * a11) then 0 else
  if fabs (dD0 * d21 - dD2 * d01) > (E0.x * a21 + E0.z * a01) + (E1.x * a12 + E1.z * a10) then 0 else
  if fabs (dD0 * d22 - dD2 * d02) > (E0.x * a22 + E0.z * a02) + (E1.x * a11 + E1.y * a10) then 0 else
  if fabs (dD1 * d00 - dD0 * d10) > (E0.x * a10 + E0.y * a00) + (E1.y * a22 + E1.z * a21) then 0 else
  if fabs (dD1 * d01 - dD0 * d11) > (E0.x * a11 + E0.y * a01) + (E1.x * a22 + E1.z * a20) then 0 else
  if fabs (dD1 * d02 - dD0 * d12) > (E0.x * a12 + E0.y * a02) + (E1.x * a21 + E1.y * a20) then 0 else
  1

/-- Membership in the solid box described by a center point and three extent
vectors (spec section 3 data model: each extent vector is a local axis
direction scaled by that axis's half width). -/
def obbContains (c r1 r2 r3 p : Vect α) : Prop :=
  ∃ t1 t2 t3 : α, fabs t1 ≤ 1 ∧ fabs t2 ≤ 1 ∧ fabs t3 ≤ 1 ∧
    p = vadd c (vadd (smulv t1 r1) (vadd (smulv t2 r2) (smulv t3 r3)))

end Core

/-- Modelled from the spec: Euclidean magnitude of a vector (`MAGNITUDE`
from vmath.h, not among the provided sources): `|v| = sqrt(v . v)`. -/
noncomputable def magnitude (v : Vect ℝ) : ℝ := Real.sqrt (dotv v v)

/-- Modelled from the spec: unitization (`VUNITIZE` from vmath.h, not among
the provided sources): `A[k] = extentK / |extentK|`; a zero vector stays the
zero vector. -/
noncomputable def unitize (v : Vect ℝ) : Vect ℝ := smulv (1 / magnitude v) v

/-- `bg_sat_abb_obb` (sat.c lines 64-255): derive the center/half-extent
form of the aligned box (lines 74-75), the magnitudes and unit axes of the
oriented box (lines 79-87), and run the shared SAT core on
`D = C1 - C0`. -/
noncomputable def bg_sat_abb_obb
    (abb_min abb_max obb_center obb_extent1 obb_extent2 obb_extent3 : Vect ℝ) : ℤ :=
  abbCoreD (vsub obb_center (smulv (1/2) (vadd abb_max abb_min)))
    (smulv (1/2) (vsub abb_max abb_min))
    ⟨magnitude obb_extent1, magnitude obb_extent2, magnitude obb_extent3⟩
    (unitize obb_extent1) (unitize obb_extent2) (unitize obb_extent3)

/-- `bg_sat_obb_obb` (sat.c lines 261-456): derive the magnitudes and unit
axes of both oriented boxes (lines 268-288) and run the SAT core on
`D = C1 - C0`. -/
noncomputable def bg_sat_obb_obb
    (obb1_center obb1_extent1 obb1_extent2 obb1_extent3
     obb2_center obb2_extent1 obb2_extent2 obb2_extent3 : Vect ℝ) : ℤ :=
  obbCoreD (vsub obb2_center obb1_center)
    ⟨magnitude obb1_extent1, magnitude obb1_extent2, magnitude obb1_extent3⟩
    (unitize obb1_extent1) (unitize obb1_extent2) (unitize obb1_extent3)
    ⟨magnitude obb2_extent1, magnitude obb2_extent2, magnitude obb2_extent3⟩
    (unitize obb2_extent1) (unitize obb2_extent2) (unitize obb2_extent3)



/-! ### Helper lemmas -/

section Helpers

variable {α : Type*} [LinearOrderedField α]

theorem fabs_zero : fabs (0 : α) = 0 := by simp [fabs]

theorem fabs_of_nonneg {a : α} (h : 0 ≤ a) : fabs a = a := if_neg (not_lt.mpr h)

theorem ge_iff_gt_of_ne {a b : α} (h : a ≠ b) : a ≥ b ↔ a > b :=
  ⟨fun h1 => lt_of_le_of_ne h1 (Ne.symm h), le_of_lt⟩

theorem dotv_ex (w : Vect α) : dotv ⟨1, 0, 0⟩ w = w.x := by simp [dotv]

theorem dotv_ey (w : Vect α) : dotv ⟨0, 1, 0⟩ w = w.y := by simp [dotv]

theorem dotv_ez (w : Vect α) : dotv ⟨0, 0, 1⟩ w = w.z := by simp [dotv]

theorem dotv_ex' (w : Vect α) : dotv w ⟨1, 0, 0⟩ = w.x := by simp [dotv]

theorem dotv_ey' (w : Vect α) : dotv w ⟨0, 1, 0⟩ = w.y := by simp [dotv]

theorem dotv_ez' (w : Vect α) : dotv w ⟨0, 0, 1⟩ = w.z := by simp [dotv]

theorem vsub_vadd_vadd (a b t : Vect α) : vsub (vadd a t) (vadd b t) = vsub a b := by
  ext <;> simp only [vsub, vadd] <;> ring

theorem abb_center_shift (c t a b : Vect α) :
    vsub (vadd c t) (smulv (1/2) (vadd (vadd a t) (vadd b t))) =
      vsub c (smulv (1/2) (vadd a b)) := by
  ext <;> simp only [vsub, vadd, smulv] <;> ring

theorem half_vsub_eq (a b : Vect α) :
    smulv (1/2) (vsub a b) = ⟨(a.x - b.x)/2, (a.y - b.y)/2, (a.z - b.z)/2⟩ := by
  ext <;> simp only [vsub, smulv] <;> ring

theorem ite_zero_or (c : Prop) [Decidable c] (x : ℤ) (h : x = 0 ∨ x = 1) :
    (if c then (0 : ℤ) else x) = 0 ∨ (if c then (0 : ℤ) else x) = 1 := by
  by_cases hc : c
  · rw [if_pos hc]; exact Or.inl rfl
  · rw [if_neg hc]; exact h

theorem ite_one_or (c : Prop) [Decidable c] (x : ℤ) (h : x = 0 ∨ x = 1) :
    (if c then (1 : ℤ) else x) = 0 ∨ (if c then (1 : ℤ) else x) = 1 := by
  by_cases hc : c
  · rw [if_pos hc]; exact Or.inr rfl
  · rw [if_neg hc]; exact h

/-- The range lemma for the OBB-OBB SAT core: every control path returns the
literal 0 or the literal 1. -/
theorem obbCoreD_range (D E0 A00 A01 A02 E1 A10 A11 A12 : Vect α) :
    obbCoreD D E0 A00 A01 A02 E1 A10 A11 A12 = 0 ∨
    obbCoreD D E0 A00 A01 A02 E1 A10 A11 A12 = 1 := by
  simp only [obbCoreD]
  apply ite_zero_or; apply ite_zero_or; apply ite_zero_or
  apply ite_zero_or; apply ite_zero_or; apply ite_zero_or
  apply ite_one_or
  apply ite_zero_or; apply ite_zero_or; apply ite_zero_or
  apply ite_zero_or; apply ite_zero_or; apply ite_zero_or
  apply ite_zero_or; apply ite_zero_or; apply ite_zero_or
  exact Or.inr rfl

/-- The range lemma for the AABB-OBB SAT core. -/
theorem abbCoreD_range (D E0 E1 A10 A11 A12 : Vect α) :
    abbCoreD D E0 E1 A10 A11 A12 = 0 ∨ abbCoreD D E0 E1 A10 A11 A12 = 1 := by
  simp only [abbCoreD]
  apply ite_zero_or; apply ite_zero_or; apply ite_zero_or
  apply ite_zero_or; apply ite_zero_or; apply ite_zero_or
  apply ite_one_or
  apply ite_zero_or; apply ite_zero_or; apply ite_zero_or
  apply ite_zero_or; apply ite_zero_or; apply ite_zero_or
  apply ite_zero_or; apply ite_zero_or; apply ite_zero_or
  exact Or.inr rfl

/-- When the first box's axes are the world basis, the parallel-pair flag of
`bg_sat_obb_obb` agrees with the one of `bg_sat_abb_obb` provided no absolute
dot product of rows 1 and 2 lies exactly at the cutoff (those rows use `>`
in the OBB-OBB code but `>=` in the AABB-OBB code). -/
theorem obb_flag_world (A10 A11 A12 : Vect α)
    (h1 : fabs A10.y ≠ cutoff) (h2 : fabs A11.y ≠ cutoff) (h3 : fabs A12.y ≠ cutoff)
    (h4 : fabs A10.z ≠ cutoff) (h5 : fabs A11.z ≠ cutoff) (h6 : fabs A12.z ≠ cutoff) :
    obbParallelPair ⟨0, 1, 0⟩ ⟨0, 0, 1⟩ A10 A11 A12 ↔ abbParallelPair A10 A11 A12 := by
  unfold obbParallelPair abbParallelPair
  rw [dotv_ey, dotv_ey, dotv_ey, dotv_ez, dotv_ez, dotv_ez]
  exact or_congr Iff.rfl (or_congr Iff.rfl (or_congr Iff.rfl
    (or_congr (ge_iff_gt_of_ne h1).symm (or_congr (ge_iff_gt_of_ne h2).symm
    (or_congr (ge_iff_gt_of_ne h3).symm (or_congr (ge_iff_gt_of_ne h4).symm
    (or_congr (ge_iff_gt_of_ne h5).symm (ge_iff_gt_of_ne h6).symm)))))))

/-- With the first box's axes set to the world basis, the AABB-OBB SAT core
coincides with the OBB-OBB SAT core, away from the cutoff knife edge of the
parallel-pair flag. -/
theorem abbCoreD_eq_obbCoreD (D E0 E1 A10 A11 A12 : Vect α)
    (h1 : fabs A10.y ≠ cutoff) (h2 : fabs A11.y ≠ cutoff) (h3 : fabs A12.y ≠ cutoff)
    (h4 : fabs A10.z ≠ cutoff) (h5 : fabs A11.z ≠ cutoff) (h6 : fabs A12.z ≠ cutoff) :
    abbCoreD D E0 E1 A10 A11 A12 =
      obbCoreD D E0 ⟨1, 0, 0⟩ ⟨0, 1, 0⟩ ⟨0, 0, 1⟩ E1 A10 A11 A12 := by
  have hflag := obb_flag_world A10 A11 A12 h1 h2 h3 h4 h5 h6
  simp only [abbCoreD, obbCoreD, dotv_ex, dotv_ey, dotv_ez, dotv_ex', dotv_ey', dotv_ez',
    hflag]

end Helpers

section RealHelpers

theorem magnitude_eq (v : Vect ℝ) (c : ℝ) (h0 : 0 ≤ c) (h : dotv v v = c * c) :
    magnitude v = c := by
  rw [magnitude, h, Real.sqrt_mul_self h0]

theorem unitize_unit (v : Vect ℝ) (h : dotv v v = 1) : unitize v = v := by
  rw [unitize, magnitude, h, Real.sqrt_one]
  ext <;> simp [smulv]

theorem magnitude_ex : magnitude (⟨1, 0, 0⟩ : Vect ℝ) = 1 :=
  magnitude_eq _ 1 (by norm_num) (by norm_num [dotv])

theorem magnitude_ey : magnitude (⟨0, 1, 0⟩ : Vect ℝ) = 1 :=
  magnitude_eq _ 1 (by norm_num) (by norm_num [dotv])

theorem magnitude_ez : magnitude (⟨0, 0, 1⟩ : Vect ℝ) = 1 :=
  magnitude_eq _ 1 (by norm_num) (by norm_num [dotv])

theorem unitize_ex : unitize (⟨1, 0, 0⟩ : Vect ℝ) = ⟨1, 0, 0⟩ :=
  unitize_unit _ (by norm_num [dotv])

theorem unitize_ey : unitize (⟨0, 1, 0⟩ : Vect ℝ) = ⟨0, 1, 0⟩ :=
  unitize_unit _ (by norm_num [dotv])

theorem unitize_ez : unitize (⟨0, 0, 1⟩ : Vect ℝ) = ⟨0, 0, 1⟩ :=
  unitize_unit _ (by norm_num [dotv])

theorem magnitude_u : magnitude (⟨3/5, 4/5, 0⟩ : Vect ℝ) = 1 :=
  magnitude_eq _ 1 (by norm_num) (by norm_num [dotv])

theorem magnitude_v : magnitude (⟨-4/5, 3/5, 0⟩ : Vect ℝ) = 1 :=
  magnitude_eq _ 1 (by norm_num) (by norm_num [dotv])

theorem unitize_u : unitize (⟨3/5, 4/5, 0⟩ : Vect ℝ) = ⟨3/5, 4/5, 0⟩ :=
  unitize_unit _ (by norm_num [dotv])

theorem unitize_v : unitize (⟨-4/5, 3/5, 0⟩ : Vect ℝ) = ⟨-4/5, 3/5, 0⟩ :=
  unitize_unit _ (by norm_num [dotv])

theorem magnitude_zero_vec : magnitude (⟨0, 0, 0⟩ : Vect ℝ) = 0 :=
  magnitude_eq _ 0 le_rfl (by norm_num [dotv])

theorem unitize_zero_vec : unitize (⟨0, 0, 0⟩ : Vect ℝ) = ⟨0, 0, 0⟩ := by
  rw [unitize]
  ext <;> simp [smulv]

theorem magnitude_axis_x (a : ℝ) (h : 0 ≤ a) : magnitude ⟨a, 0, 0⟩ = a :=
  magnitude_eq _ a h (by norm_num [dotv])

theorem magnitude_axis_y (a : ℝ) (h : 0 ≤ a) : magnitude ⟨0, a, 0⟩ = a :=
  magnitude_eq _ a h (by norm_num [dotv])

theorem magnitude_axis_z (a : ℝ) (h : 0 ≤ a) : magnitude ⟨0, 0, a⟩ = a :=
  magnitude_eq _ a h (by norm_num [dotv])

theorem unitize_axis_x (a : ℝ) (h : 0 < a) : unitize ⟨a, 0, 0⟩ = ⟨1, 0, 0⟩ := by
  rw [unitize, magnitude_axis_x a h.le]
  ext <;> simp [smulv]
  field_simp

theorem unitize_axis_y (a : ℝ) (h : 0 < a) : unitize ⟨0, a, 0⟩ = ⟨0, 1, 0⟩ := by
  rw [unitize, magnitude_axis_y a h.le]
  ext <;> simp [smulv]
  field_simp

theorem unitize_axis_z (a : ℝ) (h : 0 < a) : unitize ⟨0, 0, a⟩ = ⟨0, 0, 1⟩ := by
  rw [unitize, magnitude_axis_z a h.le]
  ext <;> simp [smulv]
  field_simp

end RealHelpers

theorem fabs_one {α : Type*} [LinearOrderedField α] : fabs (1 : α) = 1 :=
  fabs_of_nonneg zero_le_one

/-! ### Shared concrete evaluations

The box pair used for claims C1 and C3: box P is the unit cube rotated about
the z axis by the 3-4-5 angle (extent vectors `(3/5,4/5,0)`, `(-4/5,3/5,0)`,
`(0,0,1)`, all exact unit vectors) centered at the origin; box Q is the
world-aligned unit cube centered at `(11/5, 11/10, 0)`. -/

theorem obb_PQ_eval :
    bg_sat_obb_obb ⟨0, 0, 0⟩ ⟨3/5, 4/5, 0⟩ ⟨-4/5, 3/5, 0⟩ ⟨0, 0, 1⟩
      ⟨11/5, 11/10, 0⟩ ⟨1, 0, 0⟩ ⟨0, 1, 0⟩ ⟨0, 0, 1⟩ = 0 := by
  unfold bg_sat_obb_obb
  rw [magnitude_u, magnitude_v, magnitude_ez, magnitude_ex, magnitude_ey,
      unitize_u, unitize_v, unitize_ez, unitize_ex, unitize_ey]
  norm_num [obbCoreD, obbParallelPair, fabs, dotv, vsub, cutoff, epsilon]

theorem obb_QP_eval :
    bg_sat_obb_obb ⟨11/5, 11/10, 0⟩ ⟨1, 0, 0⟩ ⟨0, 1, 0⟩ ⟨0, 0, 1⟩
      ⟨0, 0, 0⟩ ⟨3/5, 4/5, 0⟩ ⟨-4/5, 3/5, 0⟩ ⟨0, 0, 1⟩ = 1 := by
  unfold bg_sat_obb_obb
  rw [magnitude_u, magnitude_v, magnitude_ez, magnitude_ex, magnitude_ey,
      unitize_u, unitize_v, unitize_ez, unitize_ex, unitize_ey]
  norm_num [obbCoreD, obbParallelPair, fabs, dotv, vsub, cutoff, epsilon]

/-! ### Claim theorems -/

/-- Claim C1: refuted on the code (failing input).  `bg_sat_obb_obb` reports
the well-formed boxes P and Q as disjoint (returns 0) although the point
`(5/4, 3/20, 0)` lies in both boxes, so no separating axis exists.  The false
negative comes from sat.c line 316, which fills row 0 of `absDot01` with
`fabs(A1[i][0])` instead of `fabs(dot01[0][i])`, inflating the projected
radius table entry used on the first face axis test. -/
theorem P_contains_point :
    obbContains (⟨0, 0, 0⟩ : Vect ℝ) ⟨3/5, 4/5, 0⟩ ⟨-4/5, 3/5, 0⟩ ⟨0, 0, 1⟩
      ⟨5/4, 3/20, 0⟩ := by
  refine ⟨87/100, -91/100, 0, ?_, ?_, ?_, ?_⟩
  · norm_num [fabs]
  · norm_num [fabs]
  · norm_num [fabs]
  · ext <;> norm_num [vadd, smulv]

theorem Q_contains_point :
    obbContains (⟨11/5, 11/10, 0⟩ : Vect ℝ) ⟨1, 0, 0⟩ ⟨0, 1, 0⟩ ⟨0, 0, 1⟩
      ⟨5/4, 3/20, 0⟩ := by
  refine ⟨-19/20, -19/20, 0, ?_, ?_, ?_, ?_⟩
  · norm_num [fabs]
  · norm_num [fabs]
  · norm_num [fabs]
  · ext <;> norm_num [vadd, smulv]

theorem c1_false_negative_on_overlapping_boxes :
    bg_sat_obb_obb ⟨0, 0, 0⟩ ⟨3/5, 4/5, 0⟩ ⟨-4/5, 3/5, 0⟩ ⟨0, 0, 1⟩
      ⟨11/5, 11/10, 0⟩ ⟨1, 0, 0⟩ ⟨0, 1, 0⟩ ⟨0, 0, 1⟩ = 0 ∧
    obbContains (⟨0, 0, 0⟩ : Vect ℝ) ⟨3/5, 4/5, 0⟩ ⟨-4/5, 3/5, 0⟩ ⟨0, 0, 1⟩ ⟨5/4, 3/20, 0⟩ ∧
    obbContains (⟨11/5, 11/10, 0⟩ : Vect ℝ) ⟨1, 0, 0⟩ ⟨0, 1, 0⟩ ⟨0, 0, 1⟩ ⟨5/4, 3/20, 0⟩ :=
  ⟨obb_PQ_eval, P_contains_point, Q_contains_point⟩

/-- Claim C2: refuted on the code (failing input).  In `bg_sat_obb_obb` the
table entry `absDot01[0][0]` is `fabs(A1[0][0])` (sat.c line 316), not
`|A0[0]·A1[0]|`: for the unit axes of the C1/C3 box pair (box 0 rotated by
the 3-4-5 angle about z, box 1 world aligned) the code stores 1 while the
absolute dot product is 3/5. -/
theorem c2_absdot_table_entry_wrong :
    obbAbsDot01 (⟨3/5, 4/5, 0⟩ : Vect ℝ) ⟨-4/5, 3/5, 0⟩ ⟨0, 0, 1⟩
      ⟨1, 0, 0⟩ ⟨0, 1, 0⟩ ⟨0, 0, 1⟩ 0 0 = 1 ∧
    fabs (obbDot01 (⟨3/5, 4/5, 0⟩ : Vect ℝ) ⟨-4/5, 3/5, 0⟩ ⟨0, 0, 1⟩
      ⟨1, 0, 0⟩ ⟨0, 1, 0⟩ ⟨0, 0, 1⟩ 0 0) = 3/5 := by
  norm_num [obbAbsDot01, obbDot01, pick3, fabs, dotv]

/-- Claim C3: refuted on the code (failing input).  Swapping the two
well-formed boxes P and Q changes the verdict of `bg_sat_obb_obb`:
`(P,Q)` yields 0 (disjoint) while `(Q,P)` yields 1 (overlap), because the
row-0 `absDot01` slip of sat.c line 316 is harmless when the first box is
world aligned but corrupts the radii when the first box is rotated. -/
theorem c3_swapping_boxes_changes_verdict :
    bg_sat_obb_obb ⟨0, 0, 0⟩ ⟨3/5, 4/5, 0⟩ ⟨-4/5, 3/5, 0⟩ ⟨0, 0, 1⟩
      ⟨11/5, 11/10, 0⟩ ⟨1, 0, 0⟩ ⟨0, 1, 0⟩ ⟨0, 0, 1⟩ = 0 ∧
    bg_sat_obb_obb ⟨11/5, 11/10, 0⟩ ⟨1, 0, 0⟩ ⟨0, 1, 0⟩ ⟨0, 0, 1⟩
      ⟨0, 0, 0⟩ ⟨3/5, 4/5, 0⟩ ⟨-4/5, 3/5, 0⟩ ⟨0, 0, 1⟩ = 1 :=
  ⟨obb_PQ_eval, obb_QP_eval⟩

/-- Claim C5: confirmed.  All separation comparisons are strict (`r > r01`),
so for the whole family of world-aligned unit cubes centered at the origin
and at `(c,0,0)` with `|c| ≤ 2` — including the exactly touching position
`c = 2`, where `r = r01` on the shared axis — both predicates report overlap
(return 1). -/
theorem c5_touching_boxes_report_overlap (c : ℝ) (hc : fabs c ≤ 2) :
    bg_sat_obb_obb ⟨0, 0, 0⟩ ⟨1, 0, 0⟩ ⟨0, 1, 0⟩ ⟨0, 0, 1⟩
      ⟨c, 0, 0⟩ ⟨1, 0, 0⟩ ⟨0, 1, 0⟩ ⟨0, 0, 1⟩ = 1 ∧
    bg_sat_abb_obb ⟨-1, -1, -1⟩ ⟨1, 1, 1⟩ ⟨c, 0, 0⟩ ⟨1, 0, 0⟩ ⟨0, 1, 0⟩ ⟨0, 0, 1⟩ = 1 := by
  have h2 : ¬ ((2 : ℝ) < fabs c) := not_lt.mpr hc
  constructor
  · unfold bg_sat_obb_obb
    rw [magnitude_ex, magnitude_ey, magnitude_ez, unitize_ex, unitize_ey, unitize_ez]
    norm_num [obbCoreD, obbParallelPair, fabs_zero, fabs_one, dotv, vsub, cutoff,
      epsilon, h2]
  · unfold bg_sat_abb_obb
    rw [magnitude_ex, magnitude_ey, magnitude_ez, unitize_ex, unitize_ey, unitize_ez]
    norm_num [abbCoreD, abbParallelPair, fabs_zero, fabs_one, dotv, vsub, vadd, smulv,
      cutoff, epsilon, h2]

/-- Witness for C5 at the exactly-touching input `c = 2` (centers `(0,0,0)`
and `(2,0,0)`, half-extent 1 on the shared axis). -/
theorem c5_touching_boxes_report_overlap_witness :
    fabs (2 : ℝ) ≤ 2 ∧
    (bg_sat_obb_obb ⟨0, 0, 0⟩ ⟨1, 0, 0⟩ ⟨0, 1, 0⟩ ⟨0, 0, 1⟩
      ⟨2, 0, 0⟩ ⟨1, 0, 0⟩ ⟨0, 1, 0⟩ ⟨0, 0, 1⟩ = 1 ∧
    bg_sat_abb_obb ⟨-1, -1, -1⟩ ⟨1, 1, 1⟩ ⟨2, 0, 0⟩ ⟨1, 0, 0⟩ ⟨0, 1, 0⟩ ⟨0, 0, 1⟩ = 1) :=
  ⟨by norm_num [fabs], c5_touching_boxes_report_overlap 2 (by norm_num [fabs])⟩

/-- Claim C6: refuted on the code (failing input).  Take the first box's unit
axes to be the rows of a rational rotation with no entry of absolute value
close to 1 (a 3-4-5 rotation about z composed with one about x) and the
second box world aligned.  Every one of the nine absolute dot products
`|A0[i]·A1[j]|` is at most 4/5 < cutoff, yet `bg_sat_obb_obb`'s
`existsParallelPair` flag is set, because its row-0 check (sat.c lines
316-317) tests `fabs(A1[i][0])` — here 1 — instead of the absolute dot
product.  (Rows 1 and 2 moreover use `>` rather than the claimed `≥`.) -/
theorem c6_parallel_flag_set_without_parallel_pair :
    obbParallelPair (⟨4/5, 9/25, -12/25⟩ : Vect ℝ) ⟨0, 4/5, 3/5⟩
      ⟨1, 0, 0⟩ ⟨0, 1, 0⟩ ⟨0, 0, 1⟩ ∧
    fabs (dotv (⟨3/5, -12/25, 16/25⟩ : Vect ℝ) ⟨1, 0, 0⟩) < cutoff ∧
    fabs (dotv (⟨3/5, -12/25, 16/25⟩ : Vect ℝ) ⟨0, 1, 0⟩) < cutoff ∧
    fabs (dotv (⟨3/5, -12/25, 16/25⟩ : Vect ℝ) ⟨0, 0, 1⟩) < cutoff ∧
    fabs (dotv (⟨4/5, 9/25, -12/25⟩ : Vect ℝ) ⟨1, 0, 0⟩) < cutoff ∧
    fabs (dotv (⟨4/5, 9/25, -12/25⟩ : Vect ℝ) ⟨0, 1, 0⟩) < cutoff ∧
    fabs (dotv (⟨4/5, 9/25, -12/25⟩ : Vect ℝ) ⟨0, 0, 1⟩) < cutoff ∧
    fabs (dotv (⟨0, 4/5, 3/5⟩ : Vect ℝ) ⟨1, 0, 0⟩) < cutoff ∧
    fabs (dotv (⟨0, 4/5, 3/5⟩ : Vect ℝ) ⟨0, 1, 0⟩) < cutoff ∧
    fabs (dotv (⟨0, 4/5, 3/5⟩ : Vect ℝ) ⟨0, 0, 1⟩) < cutoff := by
  norm_num [obbParallelPair, fabs, dotv, cutoff, epsilon]

/-- Claim C8: refuted on the code (failing input).  Two world-aligned unit
cubes with centers `(0,0,0)` and `(9/5,0,0)` overlap and `bg_sat_obb_obb`
returns 1; after rotating both centers and all six extent vectors by the
3-4-5 rotation about the z axis the same geometric configuration returns 0,
because the row-0 `absDot01` slip of sat.c line 316 deflates the projected
radius on the second box's first face axis. -/
theorem c8_rotation_changes_verdict :
    bg_sat_obb_obb ⟨0, 0, 0⟩ ⟨1, 0, 0⟩ ⟨0, 1, 0⟩ ⟨0, 0, 1⟩
      ⟨9/5, 0, 0⟩ ⟨1, 0, 0⟩ ⟨0, 1, 0⟩ ⟨0, 0, 1⟩ = 1 ∧
    bg_sat_obb_obb ⟨0, 0, 0⟩ ⟨3/5, 4/5, 0⟩ ⟨-4/5, 3/5, 0⟩ ⟨0, 0, 1⟩
      ⟨27/25, 36/25, 0⟩ ⟨3/5, 4/5, 0⟩ ⟨-4/5, 3/5, 0⟩ ⟨0, 0, 1⟩ = 0 := by
  constructor
  · unfold bg_sat_obb_obb
    rw [magnitude_ex, magnitude_ey, magnitude_ez, unitize_ex, unitize_ey, unitize_ez]
    norm_num [obbCoreD, obbParallelPair, fabs, dotv, vsub, cutoff, epsilon]
  · unfold bg_sat_obb_obb
    rw [magnitude_u, magnitude_v, magnitude_ez, unitize_u, unitize_v, unitize_ez]
    norm_num [obbCoreD, obbParallelPair, fabs, dotv, vsub, cutoff, epsilon]

/-- Claim C9: confirmed.  World-aligned unit cubes centered at the origin
and at `(10,0,0)` are separated along the first face-normal axis, and both
predicates return 0 on them. -/
theorem c9_separated_boxes_return_false :
    bg_sat_obb_obb ⟨0, 0, 0⟩ ⟨1, 0, 0⟩ ⟨0, 1, 0⟩ ⟨0, 0, 1⟩
      ⟨10, 0, 0⟩ ⟨1, 0, 0⟩ ⟨0, 1, 0⟩ ⟨0, 0, 1⟩ = 0 ∧
    bg_sat_abb_obb ⟨-1, -1, -1⟩ ⟨1, 1, 1⟩ ⟨10, 0, 0⟩ ⟨1, 0, 0⟩ ⟨0, 1, 0⟩ ⟨0, 0, 1⟩ = 0 := by
  constructor
  · unfold bg_sat_obb_obb
    rw [magnitude_ex, magnitude_ey, magnitude_ez, unitize_ex, unitize_ey, unitize_ez]
    norm_num [obbCoreD, obbParallelPair, fabs, dotv, vsub, cutoff, epsilon]
  · unfold bg_sat_abb_obb
    rw [magnitude_ex, magnitude_ey, magnitude_ez, unitize_ex, unitize_ey, unitize_ez]
    norm_num [abbCoreD, abbParallelPair, fabs, dotv, vsub, vadd, smulv, cutoff, epsilon]

/-- Counterexample to claim C4 as stated: for the degenerate aligned box
`min = (0,-5,-5)`, `max = (0,5,5)` (allowed by the claim's `min ≤ max`
hypothesis) and a tilted unit cube at `(2,0,0)`, `bg_sat_abb_obb` separates
the boxes on the first world axis and returns 0, while `bg_sat_obb_obb` on
the re-expressed oriented form — whose first extent vector is the zero
vector, which unitizes to the zero vector instead of the world x axis —
cannot see that axis and returns 1. -/
theorem c4_degenerate_box_mismatch :
    bg_sat_abb_obb ⟨0, -5, -5⟩ ⟨0, 5, 5⟩ ⟨2, 0, 0⟩
      ⟨3/5, 4/5, 0⟩ ⟨-4/5, 3/5, 0⟩ ⟨0, 0, 1⟩ = 0 ∧
    bg_sat_obb_obb ⟨0, 0, 0⟩ ⟨0, 0, 0⟩ ⟨0, 5, 0⟩ ⟨0, 0, 5⟩ ⟨2, 0, 0⟩
      ⟨3/5, 4/5, 0⟩ ⟨-4/5, 3/5, 0⟩ ⟨0, 0, 1⟩ = 1 := by
  constructor
  · unfold bg_sat_abb_obb
    rw [magnitude_u, magnitude_v, magnitude_ez, unitize_u, unitize_v, unitize_ez]
    norm_num [abbCoreD, abbParallelPair, fabs, dotv, vsub, vadd, smulv, cutoff, epsilon]
  · unfold bg_sat_obb_obb
    rw [magnitude_zero_vec, magnitude_axis_y 5 (by norm_num),
      magnitude_axis_z 5 (by norm_num), unitize_zero_vec,
      unitize_axis_y 5 (by norm_num), unitize_axis_z 5 (by norm_num),
      magnitude_u, magnitude_v, magnitude_ez, unitize_u, unitize_v, unitize_ez]
    norm_num [obbCoreD, obbParallelPair, fabs, dotv, vsub, cutoff, epsilon]

/-- Claim C4, amended: for every aligned box with `min < max` strictly
componentwise (so the re-expressed extent vectors are genuinely non-zero)
and every oriented box none of whose unitized axes has a y or z component
of absolute value exactly equal to the parallel cutoff (rows 1 and 2 of the
parallel-pair test use `>` in `bg_sat_obb_obb` but `>=` in
`bg_sat_abb_obb`), the AABB-OBB test equals the OBB-OBB test applied to the
two oriented-box representations. -/
theorem c4_abb_obb_consistency (bmin bmax c e1 e2 e3 : Vect ℝ)
    (hx : bmin.x < bmax.x) (hy : bmin.y < bmax.y) (hz : bmin.z < bmax.z)
    (k1 : fabs (unitize e1).y ≠ cutoff) (k2 : fabs (unitize e2).y ≠ cutoff)
    (k3 : fabs (unitize e3).y ≠ cutoff) (k4 : fabs (unitize e1).z ≠ cutoff)
    (k5 : fabs (unitize e2).z ≠ cutoff) (k6 : fabs (unitize e3).z ≠ cutoff) :
    bg_sat_abb_obb bmin bmax c e1 e2 e3 =
      bg_sat_obb_obb (smulv (1/2) (vadd bmax bmin))
        ⟨(bmax.x - bmin.x)/2, 0, 0⟩ ⟨0, (bmax.y - bmin.y)/2, 0⟩
        ⟨0, 0, (bmax.z - bmin.z)/2⟩ c e1 e2 e3 := by
  unfold bg_sat_abb_obb bg_sat_obb_obb
  rw [magnitude_axis_x ((bmax.x - bmin.x)/2) (by linarith),
      magnitude_axis_y ((bmax.y - bmin.y)/2) (by linarith),
      magnitude_axis_z ((bmax.z - bmin.z)/2) (by linarith),
      unitize_axis_x ((bmax.x - bmin.x)/2) (by linarith),
      unitize_axis_y ((bmax.y - bmin.y)/2) (by linarith),
      unitize_axis_z ((bmax.z - bmin.z)/2) (by linarith),
      half_vsub_eq]
  exact abbCoreD_eq_obbCoreD _ _ _ _ _ _ k1 k2 k3 k4 k5 k6

/-- Witness for the amended C4 at a concrete non-degenerate input: the unit
aligned cube and a world-aligned unit cube at `(5,0,0)`. -/
theorem c4_abb_obb_consistency_witness :
    ((-1 : ℝ) < 1) ∧
    fabs ((unitize (⟨1, 0, 0⟩ : Vect ℝ)).y) ≠ cutoff ∧
    fabs ((unitize (⟨0, 1, 0⟩ : Vect ℝ)).y) ≠ cutoff ∧
    fabs ((unitize (⟨0, 0, 1⟩ : Vect ℝ)).y) ≠ cutoff ∧
    fabs ((unitize (⟨1, 0, 0⟩ : Vect ℝ)).z) ≠ cutoff ∧
    fabs ((unitize (⟨0, 1, 0⟩ : Vect ℝ)).z) ≠ cutoff ∧
    fabs ((unitize (⟨0, 0, 1⟩ : Vect ℝ)).z) ≠ cutoff ∧
    bg_sat_abb_obb ⟨-1, -1, -1⟩ ⟨1, 1, 1⟩ ⟨5, 0, 0⟩ ⟨1, 0, 0⟩ ⟨0, 1, 0⟩ ⟨0, 0, 1⟩ =
      bg_sat_obb_obb (smulv (1/2) (vadd ⟨1, 1, 1⟩ ⟨-1, -1, -1⟩))
        ⟨((⟨1, 1, 1⟩ : Vect ℝ).x - (⟨-1, -1, -1⟩ : Vect ℝ).x)/2, 0, 0⟩
        ⟨0, ((⟨1, 1, 1⟩ : Vect ℝ).y - (⟨-1, -1, -1⟩ : Vect ℝ).y)/2, 0⟩
        ⟨0, 0, ((⟨1, 1, 1⟩ : Vect ℝ).z - (⟨-1, -1, -1⟩ : Vect ℝ).z)/2⟩
        ⟨5, 0, 0⟩ ⟨1, 0, 0⟩ ⟨0, 1, 0⟩ ⟨0, 0, 1⟩ :=
  ⟨by norm_num,
   by rw [unitize_ex]; norm_num [fabs, cutoff, epsilon],
   by rw [unitize_ey]; norm_num [fabs, cutoff, epsilon],
   by rw [unitize_ez]; norm_num [fabs, cutoff, epsilon],
   by rw [unitize_ex]; norm_num [fabs, cutoff, epsilon],
   by rw [unitize_ey]; norm_num [fabs, cutoff, epsilon],
   by rw [unitize_ez]; norm_num [fabs, cutoff, epsilon],
   c4_abb_obb_consistency ⟨-1, -1, -1⟩ ⟨1, 1, 1⟩ ⟨5, 0, 0⟩ ⟨1, 0, 0⟩ ⟨0, 1, 0⟩ ⟨0, 0, 1⟩
     (by norm_num) (by norm_num) (by norm_num)
     (by rw [unitize_ex]; norm_num [fabs, cutoff, epsilon])
     (by rw [unitize_ey]; norm_num [fabs, cutoff, epsilon])
     (by rw [unitize_ez]; norm_num [fabs, cutoff, epsilon])
     (by rw [unitize_ex]; norm_num [fabs, cutoff, epsilon])
     (by rw [unitize_ey]; norm_num [fabs, cutoff, epsilon])
     (by rw [unitize_ez]; norm_num [fabs, cutoff, epsilon])⟩

/-- Claim C7: confirmed, with no well-formedness hypothesis needed.
Translating both boxes' centers (and, for the aligned box, min and max) by
the same vector `t` leaves both predicates unchanged: both depend on the
centers only through the difference `D = C1 - C0`. -/
theorem c7_translation_invariance (c1 e11 e12 e13 c2 e21 e22 e23 bmin bmax t : Vect ℝ) :
    bg_sat_obb_obb (vadd c1 t) e11 e12 e13 (vadd c2 t) e21 e22 e23 =
      bg_sat_obb_obb c1 e11 e12 e13 c2 e21 e22 e23 ∧
    bg_sat_abb_obb (vadd bmin t) (vadd bmax t) (vadd c2 t) e21 e22 e23 =
      bg_sat_abb_obb bmin bmax c2 e21 e22 e23 := by
  constructor
  · unfold bg_sat_obb_obb
    rw [vsub_vadd_vadd]
  · unfold bg_sat_abb_obb
    rw [abb_center_shift, vsub_vadd_vadd]

/-- Claim C10: confirmed.  On every input whatsoever both predicates return
exactly 0 or 1: every control path ends in one of the explicit return
statements. -/
theorem c10_result_is_zero_or_one :
    (∀ c1 e11 e12 e13 c2 e21 e22 e23 : Vect ℝ,
      bg_sat_obb_obb c1 e11 e12 e13 c2 e21 e22 e23 = 0 ∨
      bg_sat_obb_obb c1 e11 e12 e13 c2 e21 e22 e23 = 1) ∧
    (∀ bmin bmax c e1 e2 e3 : Vect ℝ,
      bg_sat_abb_obb bmin bmax c e1 e2 e3 = 0 ∨
      bg_sat_abb_obb bmin bmax c e1 e2 e3 = 1) :=
  ⟨fun _ _ _ _ _ _ _ _ => obbCoreD_range _ _ _ _ _ _ _ _ _,
   fun _ _ _ _ _ _ => abbCoreD_range _ _ _ _ _ _⟩
